import Mathlib

/-!
# Verification of the Delay-comix panel compositing engine

Shallow embedding of the bubble compositing code of the Delay-comix
repository (`src/utils/downloadUtils.ts`, the `ComicPanel` overlay renderer
and the quick-position handler of the panel editor), together with proofs of the
testable properties stated in its specification.

Conventions of the embedding:
* JavaScript numbers are modelled as `ℚ` (the float constants `1.1`, `0.35`,
  `0.4`, `0.5` become the exact rationals `11/10`, `35/100`, `2/5`, `1/2`).
* `ctx.measureText` is an abstract measurement function, parameterised by the
  integer font size that the code installs via `ctx.font` before measuring.
* Optional JavaScript values (`posX?: number`) become `Option ℚ`.
* The string-literal unions `BubblePosition` / `BubbleShape` of `types.ts`
  become inductive types; `pos.includes("top")` etc. become the Boolean
  field tests below, evaluated per literal exactly as `String.includes` does.
-/

namespace DelayComix

/-- Embedding of `type BubblePosition = "top-left" | "top-right" | "bottom-left" | "bottom-right"`
from `types.ts`. -/
inductive BubblePosition
  | topLeft
  | topRight
  | bottomLeft
  | bottomRight
deriving DecidableEq, Repr

/-- Embedding of `type BubbleShape = "rounded" | "square" | "thought"` from `types.ts`. -/
inductive BubbleShape
  | rounded
  | square
  | thought
deriving DecidableEq, Repr

/-- Evaluation of `pos.includes("top")`, evaluated on each of the four literals. -/
def BubblePosition.includesTop : BubblePosition → Bool
  | .topLeft => true
  | .topRight => true
  | _ => false

/-- Evaluation of `pos.includes("bottom")`, evaluated on each of the four literals. -/
def BubblePosition.includesBottom : BubblePosition → Bool
  | .bottomLeft => true
  | .bottomRight => true
  | _ => false

/-- Evaluation of `pos.includes("left")`, evaluated on each of the four literals. -/
def BubblePosition.includesLeft : BubblePosition → Bool
  | .topLeft => true
  | .bottomLeft => true
  | _ => false

/-- Evaluation of `pos.includes("right")`, evaluated on each of the four literals. -/
def BubblePosition.includesRight : BubblePosition → Bool
  | .topRight => true
  | .bottomRight => true
  | _ => false

/-! ## JavaScript `text.split(" ")`

`String.prototype.split(" ")` cuts the string at every single space
character, keeping empty fragments, and always returns at least one
element (`"".split(" ") = [""]`). -/

/-- Worker for `splitWords`: `cur` holds the characters of the current
fragment in reverse order. -/
def splitWordsAux : List Char → List Char → List String
  | [], cur => [String.mk cur.reverse]
  | c :: cs, cur =>
    if c = ' ' then String.mk cur.reverse :: splitWordsAux cs []
    else splitWordsAux cs (c :: cur)

/-- Embedding of the JavaScript expression `text.split(" ")`
(`downloadUtils.ts` line 5). -/
def splitWords (s : String) : List String :=
  splitWordsAux s.data []

/-- Joining a list of fragments with single spaces, the inverse of
`splitWords`; used to state the reconstruction property of the wrapper. -/
def joinSp : List String → String
  | [] => ""
  | [a] => a
  | a :: b :: l => a ++ " " ++ joinSp (b :: l)

/-! ## `getLines`: greedy word wrap (`downloadUtils.ts` lines 4–20)

```js
const words = text.split(" ");
let lines = [];
let currentLine = words[0];
for (let i = 1; i < words.length; i++) {
    const width = ctx.measureText(currentLine + " " + words[i]).width;
    if (width < maxWidth) { currentLine += " " + words[i]; }
    else { lines.push(currentLine); currentLine = words[i]; }
}
lines.push(currentLine);
```
-/

/-- The loop of `getLines`: `ws` are the remaining words, `cur` is
`currentLine`, `acc` is `lines`. -/
def getLinesAux (measure : String → ℚ) (maxWidth : ℚ) :
    List String → String → List String → List String
  | [], cur, acc => acc ++ [cur]
  | w :: ws, cur, acc =>
    if measure (cur ++ " " ++ w) < maxWidth then
      getLinesAux measure maxWidth ws (cur ++ " " ++ w) acc
    else
      getLinesAux measure maxWidth ws w (acc ++ [cur])

/-- Embedding of `getLines(ctx, text, maxWidth)`; `measure` is
`s ↦ ctx.measureText(s).width`. `words[0]` of the always-nonempty
JavaScript split is taken with `headD`. -/
def getLines (measure : String → ℚ) (text : String) (maxWidth : ℚ) :
    List String :=
  getLinesAux measure maxWidth (splitWords text).tail
    ((splitWords text).headD "") []

/-! ## Font size tiers

Raster side: `downloadUtils.ts` lines 85–90.  Interactive side:
`getFontSizeClass` in `ComicPanel.tsx`. Both are driven by the raw dialogue
length. -/

/-- The font size selection of the raster compositor (`downloadUtils.ts` 85–90):
`let fontSize = 29; if (len < 20) fontSize = 38; else if (len < 50)
fontSize = 32; else fontSize = 29;` applied to `len = text.length`. -/
def rasterFontSize (text : String) : ℕ :=
  let len := text.length
  if len < 20 then 38
  else if len < 50 then 32
  else 29

/-- Embedding of `getFontSizeClass` from `ComicPanel.tsx`:
`if (len < 20) return "text-xs"; if (len < 50) return "text-[10px]";
return "text-[9px]";`. -/
def getFontSizeClass (text : String) : String :=
  let len := text.length
  if len < 20 then "text-xs"
  else if len < 50 then "text-[10px]"
  else "text-[9px]"

/-! ## Raster bubble geometry (`drawBubble`, `downloadUtils.ts` lines 73–272)

The drawing calls themselves (`ctx.fill`, `ctx.stroke`, …) have no
geometric content; the embedding records every coordinate and size the
code computes and feeds to them. -/

/-- The box-level quantities computed by `drawBubble`. -/
structure BubbleGeometry where
  fontSize : ℕ
  lineHeight : ℚ
  lines : List String
  textBlockWidth : ℚ
  bubbleWidth : ℚ
  bubbleHeight : ℚ
  x : ℚ
  y : ℚ
  radius : ℚ
  borderWidth : ℚ
deriving Repr, DecidableEq

/-- The two-dot tail drawn for thought bubbles (lines 160–196):
`(dotX, dotY)` is the centre of the large dot, `(smallX, smallY)` of the
small one, `dotSizeL`/`dotSizeS` their radii. -/
structure DotsTail where
  dotSizeL : ℚ
  dotSizeS : ℚ
  dotX : ℚ
  dotY : ℚ
  smallX : ℚ
  smallY : ℚ
deriving Repr, DecidableEq

/-- The triangular tail and its seam-cover rectangle for non-thought
bubbles (lines 197–260). -/
structure TriangleTail where
  baseX1 : ℚ
  baseX2 : ℚ
  tipX : ℚ
  tipY : ℚ
  tailBaseY : ℚ
  coverX : ℚ
  coverY : ℚ
  coverW : ℚ
  coverH : ℚ
deriving Repr, DecidableEq

/-- A bubble tail is either the thought-bubble dot pair or the standard
triangle with its cover rectangle. -/
inductive TailGeometry
  | dots (d : DotsTail)
  | triangle (t : TriangleTail)
deriving Repr, DecidableEq

/-- The thought-bubble branch of the tail code (lines 160–196). -/
def resolveDots (SCALE x y bubbleWidth bubbleHeight : ℚ)
    (pos : BubblePosition) : DotsTail :=
  let dotSizeL := 8 * SCALE * (2 / 5)
  let dotSizeS := 4 * SCALE * (2 / 5)
  let dotX := if pos.includesRight then x + bubbleWidth - 40 * SCALE * (1 / 2)
    else x + 40 * SCALE * (1 / 2)
  let dotY := if pos.includesBottom then y - 15 * SCALE * (1 / 2)
    else y + bubbleHeight + 15 * SCALE * (1 / 2)
  let offsetY := if pos.includesBottom then -(15 * SCALE * (1 / 2))
    else 15 * SCALE * (1 / 2)
  let smallX := dotX + (if pos.includesRight then 10 * SCALE * (1 / 2)
    else -(10 * SCALE * (1 / 2)))
  { dotSizeL, dotSizeS, dotX, dotY, smallX, smallY := dotY + offsetY }

/-- The standard-tail branch of the tail code (lines 197–260), including
the seam-cover rectangle. -/
def resolveTriangle (SCALE x y bubbleWidth bubbleHeight borderWidth : ℚ)
    (pos : BubblePosition) : TriangleTail :=
  let tailSize := 10 * SCALE
  let tailOffset := 16 * SCALE
  let tailHeight := 8 * SCALE
  let tailBaseY := if pos.includesBottom then y else y + bubbleHeight
  let tipY := if pos.includesBottom then y - tailHeight
    else y + bubbleHeight + tailHeight
  let baseX1 := if pos.includesLeft then x + tailOffset
    else x + bubbleWidth - tailOffset - tailSize
  let baseX2 := baseX1 + tailSize
  let tipX := if pos.includesLeft then baseX1 else baseX2
  let coverH := borderWidth * 2
  let coverW := tailSize - borderWidth * 2
  let coverX := if pos.includesLeft then x + tailOffset + borderWidth
    else x + bubbleWidth - tailOffset - tailSize + borderWidth
  let coverY := if pos.includesBottom then y - coverH / 2
    else y + bubbleHeight - coverH / 2
  { baseX1, baseX2, tipX, tipY, tailBaseY, coverX, coverY, coverW, coverH }

/-- The `if (shape === "thought") … else …` dispatch of the tail code
(line 160). -/
def resolveTail (SCALE x y bubbleWidth bubbleHeight borderWidth : ℚ)
    (pos : BubblePosition) (shape : BubbleShape) : TailGeometry :=
  if shape = .thought then
    .dots (resolveDots SCALE x y bubbleWidth bubbleHeight pos)
  else
    .triangle (resolveTriangle SCALE x y bubbleWidth bubbleHeight borderWidth pos)

/-- The geometric content of `drawBubble` after its empty-text guard
(`downloadUtils.ts` lines 76–261), together with the enclosing scale
constants of `generateDownloadableImage` (lines 59–70).  `measure n s`
stands for `ctx.measureText(s).width` with `ctx.font` set to an `n`px
font; the font sizes reaching `Math.floor` are already integers. -/
def drawBubbleGeometry (canvasW canvasH : ℚ) (measure : ℕ → String → ℚ)
    (text : String) (pos : BubblePosition) (shape : BubbleShape)
    (posX posY : Option ℚ) : BubbleGeometry × TailGeometry :=
  let SCALE := canvasW / 320
  let PADDING := 8 * SCALE
  let RADIUS_XL := 12 * SCALE
  let RADIUS_SM := 2 * SCALE
  let RADIUS_THOUGHT := 32 * SCALE
  let MIN_WIDTH := 60 * SCALE
  let maxBubbleWidth := canvasW * (35 / 100)
  let fontSize := rasterFontSize text
  let lineHeight := (fontSize : ℚ) * (11 / 10)
  let lines := getLines (measure fontSize) text (maxBubbleWidth - PADDING * 2)
  let textBlockWidth := lines.foldl
    (fun tw l => if measure fontSize l > tw then measure fontSize l else tw) 0
  let bubbleWidth := max (textBlockWidth + PADDING * 2) MIN_WIDTH
  let bubbleHeight := (lines.length : ℚ) * lineHeight + PADDING * 2
  let xy : ℚ × ℚ := match posX, posY with
    | some px, some py => (canvasW * (px / 100), canvasH * (py / 100))
    | _, _ => (30, 30)
  let radius := if shape = .thought then RADIUS_THOUGHT
    else if shape = .square then RADIUS_SM else RADIUS_XL
  let borderWidth := 1 * SCALE
  ({ fontSize, lineHeight, lines, textBlockWidth, bubbleWidth, bubbleHeight,
     x := xy.1, y := xy.2, radius, borderWidth },
   resolveTail SCALE xy.1 xy.2 bubbleWidth bubbleHeight borderWidth pos shape)

/-- Embedding of JavaScript `text.trim()`: strip whitespace characters
from both ends of the string. -/
def jsTrim (s : String) : String :=
  String.mk
    (((s.data.dropWhile Char.isWhitespace).reverse.dropWhile
        Char.isWhitespace).reverse)

/-- Embedding of `drawBubble` itself: `if (!text.trim()) return;` (line 74) guards the
whole body — a drawn bubble exists exactly when the trimmed text is
nonempty (the empty string is the only falsy string). -/
def drawBubble (canvasW canvasH : ℚ) (measure : ℕ → String → ℚ)
    (text : String) (pos : BubblePosition) (shape : BubbleShape)
    (posX posY : Option ℚ) : Option (BubbleGeometry × TailGeometry) :=
  if jsTrim text = "" then none
  else some (drawBubbleGeometry canvasW canvasH measure text pos shape posX posY)

/-! ## Interactive overlay renderer (`ComicPanel.tsx`) -/

/-- The JSX guard `{panel.charNDialogue && (<div …>…</div>)}`: the overlay
bubble element is rendered exactly when the dialogue string is truthy,
i.e. nonempty. -/
def interactiveRendersBubble (text : String) : Bool :=
  text != ""

/-- Embedding of `left: ${panel.char1BubbleX ?? 5}%` resp.
`left: ${panel.char2BubbleX ?? 55}%`. -/
def interactiveLeftPct (isChar1 : Bool) (bx : Option ℚ) : ℚ :=
  bx.getD (if isChar1 then 5 else 55)

/-- Embedding of `top: ${panel.charNBubbleY ?? 5}%` (both characters). -/
def interactiveTopPct (bY : Option ℚ) : ℚ :=
  bY.getD 5

/-- Embedding of `getTailClass` from `ComicPanel.tsx`: the class string of the standard
tail element; thought bubbles get `"hidden"`. -/
def getTailClass (pos : Option BubblePosition) (shape : Option BubbleShape)
    (isChar1 : Bool) : String :=
  let p := pos.getD (if isChar1 then .topLeft else .topRight)
  let s := shape.getD .rounded
  if s = .thought then "hidden"
  else
    let size := "w-2.5 h-2.5"
    if p.includesTop then
      if p.includesLeft then
        "absolute -bottom-2 left-4 " ++ size ++
          " bg-white border-b border-r border-black transform rotate-45"
      else
        "absolute -bottom-2 right-4 " ++ size ++
          " bg-white border-b border-r border-black transform rotate-45"
    else
      if p.includesLeft then
        "absolute -top-2 left-4 " ++ size ++
          " bg-white border-t border-l border-black transform rotate-45"
      else
        "absolute -top-2 right-4 " ++ size ++
          " bg-white border-t border-l border-black transform rotate-45"

/-- The data content of `renderThoughtTail` in `ComicPanel.tsx`: a flex
column of two dots, anchored `-bottom-5` (below the bubble) when the
anchor contains "top" and `-top-5` (above) otherwise; the large dot is
`w-2 h-2` (8px), the small one `w-1 h-1` (4px); `order-last` is put on
the large dot exactly when the anchor is a bottom one. -/
structure ThoughtTailRender where
  below : Bool
  nearLeft : Bool
  largeDotPx : ℚ
  smallDotPx : ℚ
  largeDotOrderLast : Bool
deriving Repr, DecidableEq

/-- Embedding of `renderThoughtTail(pos, isChar1)` from `ComicPanel.tsx`. -/
def renderThoughtTail (pos : Option BubblePosition) (isChar1 : Bool) :
    ThoughtTailRender :=
  let p := pos.getD (if isChar1 then .topLeft else .topRight)
  let isTop := p.includesTop
  { below := isTop, nearLeft := p.includesLeft,
    largeDotPx := 8, smallDotPx := 4, largeDotOrderLast := !isTop }

/-! ## Quick-position handler (`handleQuickPos` in the panel editor) -/

/-- The bubble-placement fields of `PanelData` that `handleQuickPos`
touches (both characters). -/
structure PanelBubbleState where
  char1BubblePos : Option BubblePosition
  char1BubbleX : Option ℚ
  char1BubbleY : Option ℚ
  char2BubblePos : Option BubblePosition
  char2BubbleX : Option ℚ
  char2BubbleY : Option ℚ
deriving Repr, DecidableEq

/-- The coordinate computation of `handleQuickPos`:
`let x = 5; let y = 5;` followed by three reassigning `if`s. -/
def handleQuickPosXY (pos : BubblePosition) : ℚ × ℚ :=
  let xy : ℚ × ℚ := (5, 5)
  let xy := if pos = .topRight then ((55 : ℚ), (5 : ℚ)) else xy
  let xy := if pos = .bottomLeft then ((5 : ℚ), (70 : ℚ)) else xy
  let xy := if pos = .bottomRight then ((55 : ℚ), (70 : ℚ)) else xy
  xy

/-- Embedding of `handleQuickPos`: it builds a partial update (pos together with x and y,
for one character) and `updatePanel` merges it by spread
(`{ ...p, ...updates }`), i.e. record update. -/
def applyQuickPos (p : PanelBubbleState) (pos : BubblePosition)
    (isChar1 : Bool) : PanelBubbleState :=
  let xy := handleQuickPosXY pos
  if isChar1 then
    { p with char1BubblePos := some pos,
             char1BubbleX := some xy.1, char1BubbleY := some xy.2 }
  else
    { p with char2BubblePos := some pos,
             char2BubbleX := some xy.1, char2BubbleY := some xy.2 }

/-- The mirror of an anchor around the vertical axis of the bubble: the
corresponding anchor with left and right exchanged. -/
def mirrorPos : BubblePosition → BubblePosition
  | .topLeft => .topRight
  | .topRight => .topLeft
  | .bottomLeft => .bottomRight
  | .bottomRight => .bottomLeft

/-- The canonical coordinate pair the specification assigns to each
quick-position corner. -/
def canonicalQuickPos : BubblePosition → ℚ × ℚ
  | .topLeft => (5, 5)
  | .topRight => (55, 5)
  | .bottomLeft => (5, 70)
  | .bottomRight => (55, 70)

/-- An idealised measurement capability whose reported width is exactly
proportional to the installed font size — the most charitable model for
testing scale invariance. -/
def mIdeal : ℕ → String → ℚ := fun n s => (n : ℚ) * s.length

theorem splitWordsAux_ne_nil (cs : List Char) (cur : List Char) :
    splitWordsAux cs cur ≠ [] := by
  cases cs with
  | nil => simp [splitWordsAux]
  | cons c cs =>
    by_cases h : c = ' ' <;> simp [splitWordsAux, h]
    exact splitWordsAux_ne_nil cs (c :: cur)

theorem joinSp_cons_of_ne_nil (a : String) (l : List String) (h : l ≠ []) :
    joinSp (a :: l) = a ++ " " ++ joinSp l := by
  cases l with
  | nil => exact absurd rfl h
  | cons b l => rfl

theorem String.mk_append (a b : List Char) :
    String.mk a ++ String.mk b = String.mk (a ++ b) := rfl

theorem joinSp_splitWordsAux (cs : List Char) (cur : List Char) :
    joinSp (splitWordsAux cs cur) = String.mk (cur.reverse ++ cs) := by
  induction cs generalizing cur with
  | nil => simp [splitWordsAux, joinSp]
  | cons c cs ih =>
    by_cases h : c = ' '
    · subst h
      rw [splitWordsAux, if_pos rfl,
        joinSp_cons_of_ne_nil _ _ (splitWordsAux_ne_nil cs []), ih]
      show String.mk cur.reverse ++ String.mk [' '] ++ String.mk cs = _
      rw [String.mk_append, String.mk_append]
      simp
    · rw [splitWordsAux, if_neg h, ih]
      simp

/-- Splitting on spaces and joining back: `text.split(" ")` joined back with single spaces is `text`. -/
theorem joinSp_splitWords (s : String) : joinSp (splitWords s) = s := by
  rw [splitWords, joinSp_splitWordsAux]
  rfl

theorem splitWords_ne_nil (s : String) : splitWords s ≠ [] :=
  splitWordsAux_ne_nil s.data []

theorem getLinesAux_ne_nil (measure : String → ℚ) (maxWidth : ℚ)
    (ws : List String) (cur : String) (acc : List String) :
    getLinesAux measure maxWidth ws cur acc ≠ [] := by
  induction ws generalizing cur acc with
  | nil => simp [getLinesAux]
  | cons w ws ih =>
    rw [getLinesAux]
    split
    · exact ih _ _
    · exact ih _ _

/-- Nonemptiness: `getLines` never returns an empty list of lines. -/
theorem getLines_ne_nil (measure : String → ℚ) (text : String)
    (maxWidth : ℚ) : getLines measure text maxWidth ≠ [] :=
  getLinesAux_ne_nil _ _ _ _ _

/-- Safety invariant of the loop: every emitted line is either a single
input word or was measured strictly below `maxWidth` when committed. -/
theorem getLinesAux_safe (measure : String → ℚ) (maxWidth : ℚ)
    (words : List String) (ws : List String) (cur : String)
    (acc : List String)
    (hws : ∀ w ∈ ws, w ∈ words)
    (hcur : cur ∈ words ∨ measure cur < maxWidth)
    (hacc : ∀ l ∈ acc, l ∈ words ∨ measure l < maxWidth) :
    ∀ l ∈ getLinesAux measure maxWidth ws cur acc,
      l ∈ words ∨ measure l < maxWidth := by
  induction ws generalizing cur acc with
  | nil =>
    intro l hl
    rw [getLinesAux] at hl
    rcases List.mem_append.mp hl with h | h
    · exact hacc l h
    · rcases List.mem_singleton.mp h with rfl
      exact hcur
  | cons w ws ih =>
    intro l hl
    rw [getLinesAux] at hl
    split at hl
    case isTrue hfit =>
      exact ih (cur ++ " " ++ w) acc
        (fun v hv => hws v (List.mem_cons_of_mem _ hv))
        (Or.inr hfit) hacc l hl
    case isFalse hfit =>
      refine ih w (acc ++ [cur])
        (fun v hv => hws v (List.mem_cons_of_mem _ hv))
        (Or.inl (hws w (List.mem_cons_self w ws))) ?_ l hl
      intro v hv
      rcases List.mem_append.mp hv with h | h
      · exact hacc v h
      · rcases List.mem_singleton.mp h with rfl
        exact hcur

/-- Join invariant of the loop: the lines produced join back (with single
spaces) to the join of the lines already emitted, the current line and the
remaining words. -/
theorem getLinesAux_join (measure : String → ℚ) (maxWidth : ℚ)
    (ws : List String) (cur : String) (acc : List String) :
    joinSp (getLinesAux measure maxWidth ws cur acc) =
      joinSp (acc ++ cur :: ws) := by
  induction ws generalizing cur acc with
  | nil => rw [getLinesAux]
  | cons w ws ih =>
    rw [getLinesAux]
    split
    · rw [ih]
      have : ∀ pre : List String,
          joinSp (pre ++ (cur ++ " " ++ w) :: ws) =
            joinSp (pre ++ cur :: w :: ws) := by
        intro pre
        induction pre with
        | nil =>
          cases ws with
          | nil => simp [joinSp, String.append_assoc]
          | cons v vs => simp [joinSp, String.append_assoc]
        | cons a pre ihp =>
          rw [List.cons_append, List.cons_append,
            joinSp_cons_of_ne_nil _ _ (by simp),
            joinSp_cons_of_ne_nil _ _ (by simp), ihp]
      exact this acc
    · rw [ih, List.append_assoc]
      rfl

/-- Every line produced by `getLines` is either literally one of the split
words or was measured strictly below `maxWidth`. -/
theorem getLines_safe (measure : String → ℚ) (text : String) (maxWidth : ℚ) :
    ∀ l ∈ getLines measure text maxWidth,
      l ∈ splitWords text ∨ measure l < maxWidth := by
  have hne := splitWords_ne_nil text
  intro l hl
  rcases h : splitWords text with _ | ⟨w, ws⟩
  · exact absurd h hne
  · rw [getLines, h] at hl
    exact getLinesAux_safe measure maxWidth (w :: ws) ws w []
      (fun v hv => List.mem_cons_of_mem _ hv)
      (Or.inl (List.mem_cons_self w ws))
      (by simp) l hl

/-- The wrapped lines join back (with single spaces) to the original
text. -/
theorem getLines_join (measure : String → ℚ) (text : String) (maxWidth : ℚ) :
    joinSp (getLines measure text maxWidth) = text := by
  have hne := splitWords_ne_nil text
  rw [getLines, getLinesAux_join, List.nil_append]
  have hcons : (splitWords text).headD "" :: (splitWords text).tail
      = splitWords text := by
    cases h : splitWords text with
    | nil => exact absurd h hne
    | cons w ws => rfl
  rw [hcons, joinSp_splitWords]

/-! ## Helper lemmas -/

theorem if_gt_eq_max (a b : ℚ) : (if b > a then b else a) = max a b := by
  rcases le_or_lt b a with h | h
  · rw [if_neg (not_lt.mpr h), max_eq_left h]
  · rw [if_pos h, max_eq_right h.le]

theorem foldr_max_pull (m : List ℚ) (a b : ℚ) :
    m.foldr max (max a b) = max a (m.foldr max b) := by
  induction m with
  | nil => rfl
  | cons x m ih => rw [List.foldr_cons, List.foldr_cons, ih, max_left_comm]

/-- The running-maximum loop of `drawBubble` (lines 100–104) computes the
fold of `max` over the measured line widths. -/
theorem foldl_textBlockWidth (f : String → ℚ) (l : List String) :
    ∀ a : ℚ, l.foldl (fun tw s => if f s > tw then f s else tw) a
      = (l.map f).foldr max a := by
  induction l with
  | nil => intro a; rfl
  | cons x l ih =>
    intro a
    rw [List.foldl_cons, if_gt_eq_max, ih, List.map_cons, List.foldr_cons,
      max_comm a (f x), foldr_max_pull]

/-! ## The claims -/

/-- C2.  Wrap correctness: for every text, maximum width and measurement
function, `getLines` returns a non-empty sequence of lines; any returned
line whose measured width exceeds the maximum width is a single word of
the input (which occupies its own line unmodified); and the returned
lines joined with single spaces reconstruct the original text exactly. -/
theorem C2_wrap_correct (measure : String → ℚ) (text : String)
    (maxWidth : ℚ) :
    getLines measure text maxWidth ≠ []
  ∧ (∀ l ∈ getLines measure text maxWidth,
      maxWidth < measure l → l ∈ splitWords text)
  ∧ joinSp (getLines measure text maxWidth) = text := by
  refine ⟨getLines_ne_nil _ _ _, ?_, getLines_join _ _ _⟩
  intro l hl hgt
  rcases getLines_safe measure text maxWidth l hl with h | h
  · exact h
  · exact absurd h (lt_asymm hgt)

/-- Witness for C2 at the text `"a b c"` with width `length` and maximum
width 0: the line `"a"` exceeds the maximum and is indeed one of the
words. -/
theorem C2_wrap_correct_witness : "a" ∈ splitWords "a b c" :=
  (C2_wrap_correct (fun s => (s.length : ℚ)) "a b c" 0).2.1 "a"
    (by decide) (by decide)

/-- C3.  Font tiering boundaries: both the raster compositor
(`rasterFontSize`) and the interactive renderer (`getFontSizeClass`)
select the tier from the raw text length — `< 20` the largest tier
(38 raster px / `text-xs`), `< 50` the medium tier (32 / `text-[10px]`),
otherwise the smallest (29 / `text-[9px]`); in particular lengths 19, 20,
49 and 50 resolve to largest, medium, medium and smallest. -/
theorem C3_font_tier_boundaries :
    (∀ text : String,
       (text.length < 20 →
          rasterFontSize text = 38 ∧ getFontSizeClass text = "text-xs")
     ∧ (20 ≤ text.length → text.length < 50 →
          rasterFontSize text = 32 ∧ getFontSizeClass text = "text-[10px]")
     ∧ (50 ≤ text.length →
          rasterFontSize text = 29 ∧ getFontSizeClass text = "text-[9px]"))
  ∧ rasterFontSize (String.mk (List.replicate 19 'a')) = 38
  ∧ rasterFontSize (String.mk (List.replicate 20 'a')) = 32
  ∧ rasterFontSize (String.mk (List.replicate 49 'a')) = 32
  ∧ rasterFontSize (String.mk (List.replicate 50 'a')) = 29
  ∧ getFontSizeClass (String.mk (List.replicate 19 'a')) = "text-xs"
  ∧ getFontSizeClass (String.mk (List.replicate 20 'a')) = "text-[10px]"
  ∧ getFontSizeClass (String.mk (List.replicate 49 'a')) = "text-[10px]"
  ∧ getFontSizeClass (String.mk (List.replicate 50 'a')) = "text-[9px]" := by
  refine ⟨fun text => ⟨?_, ?_, ?_⟩, by decide, by decide, by decide, by decide,
    by decide, by decide, by decide, by decide⟩
  · intro h
    simp [rasterFontSize, getFontSizeClass, h]
  · intro h1 h2
    have h3 : ¬ text.length < 20 := by omega
    simp [rasterFontSize, getFontSizeClass, h2, h3]
  · intro h
    have h2 : ¬ text.length < 20 := by omega
    have h3 : ¬ text.length < 50 := by omega
    simp [rasterFontSize, getFontSizeClass, h2, h3]

/-- Witness for C3 at a 20-character text: the medium tier in both
renderers. -/
theorem C3_font_tier_boundaries_witness :
    rasterFontSize "12345678901234567890" = 32
  ∧ getFontSizeClass "12345678901234567890" = "text-[10px]" :=
  (C3_font_tier_boundaries.1 "12345678901234567890").2.1
    (by decide) (by decide)

/-- C4, counterexample.  The claim says the interactive overlay renderer
renders no bubble element for whitespace-only text; but its JSX guard
tests only truthiness of the dialogue string, and `" "` is a nonempty
(truthy) whitespace-only string, so a bubble element is rendered. -/
theorem C4_counterexample :
    jsTrim " " = "" ∧ interactiveRendersBubble " " = true := by
  constructor
  · decide
  · decide

/-- C4, amended.  For empty-or-whitespace text the raster compositor
draws nothing (`drawBubble` returns early); the interactive renderer
skips a bubble exactly when the text is empty — a whitespace-only
nonempty text still renders an overlay bubble element. -/
theorem C4_empty_skip (canvasW canvasH : ℚ) (measure : ℕ → String → ℚ)
    (text : String) (pos : BubblePosition) (shape : BubbleShape)
    (posX posY : Option ℚ) :
    (jsTrim text = "" →
      drawBubble canvasW canvasH measure text pos shape posX posY = none)
  ∧ (interactiveRendersBubble text = false ↔ text = "") := by
  constructor
  · intro h
    rw [drawBubble, if_pos h]
  · simp [interactiveRendersBubble, bne]

/-- Witness for C4 (amended) at the whitespace-only text `" "`: the
raster compositor draws nothing. -/
theorem C4_empty_skip_witness :
    drawBubble 320 320 (fun _ s => (s.length : ℚ)) " "
      .topLeft .rounded none none = none :=
  (C4_empty_skip 320 320 (fun _ s => (s.length : ℚ)) " "
    .topLeft .rounded none none).1 (by decide)

/-- C5.  Bubble box and position formulas of the raster compositor: for a
non-skipped bubble with both percentage coordinates given, the drawn box
has width `max(longest-line measured width + 2·padding, minimum width)`
and height `lineCount · lineHeight + 2·padding` with
`lineHeight = fontSizePx · 1.1`, and the top-left corner sits at
`(canvasWidth · xPct/100, canvasHeight · yPct/100)`. -/
theorem C5_box_and_position (canvasW canvasH : ℚ) (measure : ℕ → String → ℚ)
    (text : String) (pos : BubblePosition) (shape : BubbleShape)
    (px py : ℚ) :
    (jsTrim text ≠ "" →
      drawBubble canvasW canvasH measure text pos shape (some px) (some py)
        = some (drawBubbleGeometry canvasW canvasH measure text pos shape
            (some px) (some py)))
  ∧ (drawBubbleGeometry canvasW canvasH measure text pos shape
        (some px) (some py)).1.bubbleWidth
      = max ((((drawBubbleGeometry canvasW canvasH measure text pos shape
            (some px) (some py)).1.lines.map
              (measure (rasterFontSize text))).foldr max 0)
            + 2 * (8 * (canvasW / 320)))
          (60 * (canvasW / 320))
  ∧ (drawBubbleGeometry canvasW canvasH measure text pos shape
        (some px) (some py)).1.bubbleHeight
      = ((drawBubbleGeometry canvasW canvasH measure text pos shape
            (some px) (some py)).1.lines.length : ℚ)
          * ((rasterFontSize text : ℚ) * (11 / 10))
        + 2 * (8 * (canvasW / 320))
  ∧ (drawBubbleGeometry canvasW canvasH measure text pos shape
        (some px) (some py)).1.lineHeight
      = ((rasterFontSize text : ℚ)) * (11 / 10)
  ∧ (drawBubbleGeometry canvasW canvasH measure text pos shape
        (some px) (some py)).1.x = canvasW * (px / 100)
  ∧ (drawBubbleGeometry canvasW canvasH measure text pos shape
        (some px) (some py)).1.y = canvasH * (py / 100) := by
  refine ⟨fun h => by rw [drawBubble, if_neg h], ?_, ?_, rfl, rfl, rfl⟩
  · simp only [drawBubbleGeometry]
    rw [foldl_textBlockWidth]
    ring_nf
  · simp only [drawBubbleGeometry]
    ring_nf

/-- Witness for C5 at a concrete bubble: canvas 320×320, constant-width
measurement, text `"hi"`, placed at (10%, 20%). -/
theorem C5_box_and_position_witness :
    drawBubble 320 320 (fun _ _ => (50 : ℚ)) "hi" .topLeft .rounded
        (some 10) (some 20)
      = some (drawBubbleGeometry 320 320 (fun _ _ => (50 : ℚ)) "hi"
          .topLeft .rounded (some 10) (some 20)) :=
  (C5_box_and_position 320 320 (fun _ _ => (50 : ℚ)) "hi" .topLeft .rounded
    10 20).1 (by decide)

/-- C6.  Thought suppression: for `shapeKind = thought` the raster tail
dispatch never yields a triangular tail but the two-dot geometry, with
the closer dot strictly larger, placed below the bubble for "top"
anchors and above it for "bottom" anchors; the standard-tail element of the
interactive renderer is `"hidden"` for thought bubbles and its dot pair
(8px over 4px) hangs below the bubble exactly for "top" anchors. -/
theorem C6_thought_suppression (SCALE x y w h bw : ℚ) (pos : BubblePosition)
    (hS : 0 < SCALE) :
    resolveTail SCALE x y w h bw pos .thought
      = .dots (resolveDots SCALE x y w h pos)
  ∧ (∀ (canvasW canvasH : ℚ) (measure : ℕ → String → ℚ) (text : String)
       (posX posY : Option ℚ), ∃ d,
       (drawBubbleGeometry canvasW canvasH measure text pos .thought
           posX posY).2 = .dots d)
  ∧ (resolveDots SCALE x y w h pos).dotSizeS
      < (resolveDots SCALE x y w h pos).dotSizeL
  ∧ (pos.includesTop = true →
       y + h < (resolveDots SCALE x y w h pos).dotY
     ∧ (resolveDots SCALE x y w h pos).dotY
         < (resolveDots SCALE x y w h pos).smallY)
  ∧ (pos.includesBottom = true →
       (resolveDots SCALE x y w h pos).dotY < y
     ∧ (resolveDots SCALE x y w h pos).smallY
         < (resolveDots SCALE x y w h pos).dotY)
  ∧ (∀ c, getTailClass (some pos) (some .thought) c = "hidden")
  ∧ (∀ c, (renderThoughtTail (some pos) c).below = pos.includesTop)
  ∧ (∀ c, (renderThoughtTail (some pos) c).smallDotPx
       < (renderThoughtTail (some pos) c).largeDotPx) := by
  refine ⟨by simp [resolveTail], ?_, ?_, ?_, ?_, ?_, ?_, ?_⟩
  · intro canvasW canvasH measure text posX posY
    exact ⟨_, rfl⟩
  · simp only [resolveDots]
    linarith
  · intro ht
    cases pos <;> simp_all [resolveDots, BubblePosition.includesTop,
      BubblePosition.includesBottom]
  · intro hb
    cases pos <;> simp_all [resolveDots, BubblePosition.includesTop,
      BubblePosition.includesBottom]
  · intro c
    simp [getTailClass]
  · intro c
    simp [renderThoughtTail]
  · intro c
    simp [renderThoughtTail]
    norm_num

/-- Witness for C6 at `SCALE = 1`, a 100×40 bubble at the origin,
anchored top-left: the centre of the large dot sits below the bubble. -/
theorem C6_thought_suppression_witness :
    (0 : ℚ) + 40 < (resolveDots 1 0 0 100 40 .topLeft).dotY :=
  ((C6_thought_suppression 1 0 0 100 40 1 .topLeft (by norm_num)).2.2.2.1
    (by decide)).1

/-- C7.  Tail-base horizontal symmetry: for a non-thought bubble the tail
base interval for a "left" anchor is `[x + offset, x + offset + tailSize]`
with `offset = 16·SCALE` and `tailSize = 10·SCALE`, its mirror image
around the horizontal centre of the bubble `x + width/2` is exactly the base
interval resolved for the corresponding "right" anchor,
`[x + width - offset - tailSize, x + width - offset]`. -/
theorem C7_tail_mirror (SCALE x y w h bw : ℚ) (pos : BubblePosition)
    (hL : pos.includesLeft = true) :
    (resolveTriangle SCALE x y w h bw pos).baseX1 = x + 16 * SCALE
  ∧ (resolveTriangle SCALE x y w h bw pos).baseX2
      = x + 16 * SCALE + 10 * SCALE
  ∧ (resolveTriangle SCALE x y w h bw (mirrorPos pos)).baseX1
      = x + w - 16 * SCALE - 10 * SCALE
  ∧ (resolveTriangle SCALE x y w h bw (mirrorPos pos)).baseX2
      = x + w - 16 * SCALE
  ∧ (mirrorPos pos).includesRight = true
  ∧ 2 * (x + w / 2) - (resolveTriangle SCALE x y w h bw pos).baseX1
      = (resolveTriangle SCALE x y w h bw (mirrorPos pos)).baseX2
  ∧ 2 * (x + w / 2) - (resolveTriangle SCALE x y w h bw pos).baseX2
      = (resolveTriangle SCALE x y w h bw (mirrorPos pos)).baseX1 := by
  refine ⟨?_, ?_, ?_, ?_, ?_, ?_, ?_⟩ <;> cases pos <;>
    simp_all [resolveTriangle, mirrorPos, BubblePosition.includesLeft,
      BubblePosition.includesRight] <;> ring

/-- Witness for C7 at `SCALE = 1`, `x = 0`, width 100, anchored top-left:
the mirrored lower end of the left base interval is the upper end of the
right one. -/
theorem C7_tail_mirror_witness :
    2 * ((0 : ℚ) + 100 / 2) - (resolveTriangle 1 0 0 100 40 1 .topLeft).baseX1
      = (resolveTriangle 1 0 0 100 40 1 (mirrorPos .topLeft)).baseX2 :=
  (C7_tail_mirror 1 0 0 100 40 1 .topLeft (by decide)).2.2.2.2.2.1

/-- C8.  Border-overlap mask bounds: for a non-thought bubble the seam
cover rectangle has width `tailSize - 2·borderWidth` (never exceeding the
tail width `10·SCALE`), lies horizontally inside the tail base interval,
has height `2·borderWidth`, and its vertical span contains the whole
border stroke of thickness `borderWidth` centred on the bubble edge the
tail is glued to. -/
theorem C8_cover_bounds (SCALE x y w h : ℚ) (pos : BubblePosition)
    (shape : BubbleShape) (hS : 0 ≤ SCALE) (hshape : shape ≠ .thought) :
    resolveTail SCALE x y w h (1 * SCALE) pos shape
      = .triangle (resolveTriangle SCALE x y w h (1 * SCALE) pos)
  ∧ (resolveTriangle SCALE x y w h (1 * SCALE) pos).coverW
      = 10 * SCALE - 2 * (1 * SCALE)
  ∧ (resolveTriangle SCALE x y w h (1 * SCALE) pos).coverW ≤ 10 * SCALE
  ∧ (resolveTriangle SCALE x y w h (1 * SCALE) pos).baseX1
      ≤ (resolveTriangle SCALE x y w h (1 * SCALE) pos).coverX
  ∧ (resolveTriangle SCALE x y w h (1 * SCALE) pos).coverX
      + (resolveTriangle SCALE x y w h (1 * SCALE) pos).coverW
      ≤ (resolveTriangle SCALE x y w h (1 * SCALE) pos).baseX2
  ∧ (resolveTriangle SCALE x y w h (1 * SCALE) pos).coverH = 2 * (1 * SCALE)
  ∧ (resolveTriangle SCALE x y w h (1 * SCALE) pos).coverY
      ≤ (resolveTriangle SCALE x y w h (1 * SCALE) pos).tailBaseY
        - 1 * SCALE / 2
  ∧ (resolveTriangle SCALE x y w h (1 * SCALE) pos).tailBaseY
      + 1 * SCALE / 2
      ≤ (resolveTriangle SCALE x y w h (1 * SCALE) pos).coverY
        + (resolveTriangle SCALE x y w h (1 * SCALE) pos).coverH := by
  refine ⟨by simp [resolveTail, hshape], ?_, ?_, ?_, ?_, ?_, ?_, ?_⟩ <;>
    cases pos <;>
    simp [resolveTriangle, BubblePosition.includesLeft,
      BubblePosition.includesBottom] <;> linarith

/-- Witness for C8 at `SCALE = 2`, a rounded bubble: the cover width is
`10·2 - 2·2`. -/
theorem C8_cover_bounds_witness :
    (resolveTriangle 2 0 0 100 40 (1 * 2) .topLeft).coverW
      = 10 * 2 - 2 * (1 * 2) :=
  (C8_cover_bounds 2 0 0 100 40 .topLeft .rounded (by norm_num)
    (by decide)).2.1

/-- C9.  Quick-position determinism: from any prior placement state,
invoking the quick-position action sets the anchor and both percentage
coordinates together to the canonical pair of the chosen corner —
(5,5), (55,5), (5,70), (55,70) — for whichever character it is invoked
on, regardless of the prior state. -/
theorem C9_quickpos_deterministic (p : PanelBubbleState)
    (pos : BubblePosition) :
    ((applyQuickPos p pos true).char1BubblePos = some pos
   ∧ (applyQuickPos p pos true).char1BubbleX
       = some (canonicalQuickPos pos).1
   ∧ (applyQuickPos p pos true).char1BubbleY
       = some (canonicalQuickPos pos).2)
  ∧ ((applyQuickPos p pos false).char2BubblePos = some pos
   ∧ (applyQuickPos p pos false).char2BubbleX
       = some (canonicalQuickPos pos).1
   ∧ (applyQuickPos p pos false).char2BubbleY
       = some (canonicalQuickPos pos).2) := by
  cases pos <;> simp [applyQuickPos, handleQuickPosXY, canonicalQuickPos]

/-- C10.  Raster fallback position: whenever either percentage coordinate
is missing, the raster compositor places the top-left corner of the bubble at
the fixed pixel point (30, 30) whatever the canvas size, while the
interactive renderer defaults missing coordinates to 5%/5% for
character 1 and 55%/5% for character 2. -/
theorem C10_raster_fallback (canvasW canvasH : ℚ)
    (measure : ℕ → String → ℚ) (text : String) (pos : BubblePosition)
    (shape : BubbleShape) (posX posY : Option ℚ)
    (hmiss : posX = none ∨ posY = none) :
    (drawBubbleGeometry canvasW canvasH measure text pos shape
        posX posY).1.x = 30
  ∧ (drawBubbleGeometry canvasW canvasH measure text pos shape
        posX posY).1.y = 30
  ∧ interactiveLeftPct true none = 5
  ∧ interactiveTopPct none = 5
  ∧ interactiveLeftPct false none = 55 := by
  refine ⟨?_, ?_, rfl, rfl, rfl⟩ <;>
  · rcases hmiss with rfl | rfl
    · cases posY <;> rfl
    · cases posX <;> rfl

/-- Witness for C10 on a 1024×1024 canvas with a missing x-coordinate:
the bubble lands at pixel x = 30. -/
theorem C10_raster_fallback_witness :
    (drawBubbleGeometry 1024 1024 mIdeal "Hi" .topLeft .rounded
        none (some 5)).1.x = 30 :=
  (C10_raster_fallback 1024 1024 mIdeal "Hi" .topLeft .rounded
    none (some 5) (Or.inl rfl)).1

/-- C1.  Scale invariance fails in the code: rendering `"Hi"` on a 640px
canvas (scale factor 2) versus a 320px canvas (scale factor 1), the
raster path keeps the font size at 38 raster pixels at both scales —
although the enclosing comments say every constant including the font
size must be scaled proportionally — and consequently the bubble height
(73.8 vs 57.8) is not 2× its scale-1 value even under a measurement
function exactly proportional to font size. -/
theorem C1_font_size_ignores_scale :
    (drawBubbleGeometry 640 640 mIdeal "Hi" .topLeft .rounded
        (some 5) (some 5)).1.fontSize
      = (drawBubbleGeometry 320 320 mIdeal "Hi" .topLeft .rounded
          (some 5) (some 5)).1.fontSize
  ∧ (drawBubbleGeometry 320 320 mIdeal "Hi" .topLeft .rounded
        (some 5) (some 5)).1.fontSize = 38
  ∧ (drawBubbleGeometry 640 640 mIdeal "Hi" .topLeft .rounded
        (some 5) (some 5)).1.bubbleHeight = 738 / 10
  ∧ (drawBubbleGeometry 320 320 mIdeal "Hi" .topLeft .rounded
        (some 5) (some 5)).1.bubbleHeight = 578 / 10
  ∧ (drawBubbleGeometry 640 640 mIdeal "Hi" .topLeft .rounded
        (some 5) (some 5)).1.bubbleHeight
      ≠ 2 * (drawBubbleGeometry 320 320 mIdeal "Hi" .topLeft .rounded
          (some 5) (some 5)).1.bubbleHeight := by
  have h640 : (drawBubbleGeometry 640 640 mIdeal "Hi" .topLeft .rounded
      (some 5) (some 5)).1.bubbleHeight = 738 / 10 := by
    show ((1 : ℕ) : ℚ) * (((38 : ℕ) : ℚ) * (11 / 10))
        + 8 * (640 / 320) * 2 = 738 / 10
    norm_num
  have h320 : (drawBubbleGeometry 320 320 mIdeal "Hi" .topLeft .rounded
      (some 5) (some 5)).1.bubbleHeight = 578 / 10 := by
    show ((1 : ℕ) : ℚ) * (((38 : ℕ) : ℚ) * (11 / 10))
        + 8 * (320 / 320) * 2 = 578 / 10
    norm_num
  refine ⟨rfl, rfl, h640, h320, ?_⟩
  rw [h640, h320]
  norm_num

end DelayComix
